import Mathlib

/-!
Verification of the pyppbox people-tracking core: the `Person` record and the
representative-point geometry from `pyppbox/utils/persontools.py`, and the
Identity Reconciler's duplicate-killer pass (`PManager.reidDupkiller`).

Modelling conventions: Python ints are `ℤ`, Python floats are `ℚ` (exact
rational arithmetic; every concrete value used below is exactly representable
as a binary float), identity labels are `String`.  `int(...)` applied to a
float in Python truncates toward zero, modelled by `pyInt`; Python's `round`
rounds to the nearest integer, modelled by Mathlib's `round` (the two agree at
every point used below).
-/

namespace Pyppbox

/-- Python `int(q)` on a float: truncation toward zero. -/
def pyInt (q : ℚ) : ℤ := if 0 ≤ q then ⌊q⌋ else ⌈q⌉

/-- From `pyppbox.config.unifiedstrings` (module not among the provided
sources).  Modelled from the spec: `faceid` defaults to the "Unknown"
sentinel (`UnifiedStrings.unk_fid`). -/
def unk_fid : String := "Unknown"

/-- From `pyppbox.config.unifiedstrings` (module not among the provided
sources).  Modelled from the spec: `deepid` defaults to the "Unknown"
sentinel (`UnifiedStrings.unk_did`). -/
def unk_did : String := "Unknown"

/-- The `Person` class of `pyppbox/utils/persontools.py`: one tracked
individual's per-frame state.  `keypoints` is opaque to the core and modelled
as a list of rationals. -/
structure Person where
  init_id : ℤ
  cid : ℤ
  box_xywh : List ℤ
  box_xyxy : List ℤ
  keypoints : List ℚ
  repspoint : ℤ × ℤ
  det_conf : ℚ
  faceid : String
  deepid : String
  faceid_conf : ℚ
  deepid_conf : ℚ
  ontracked : ℤ
deriving DecidableEq

namespace Person

/-- `Person.__init__`: all eleven parameters are stored to the attributes of
the same name (the misspelled parameter `fraceid_conf` is stored to
`faceid_conf`), and `ontracked` is unconditionally set to `0` — the
constructor has no `ontracked` parameter. -/
def init (init_id cid : ℤ) (box_xywh box_xyxy : List ℤ) (keypoints : List ℚ)
    (repspoint : ℤ × ℤ) (det_conf : ℚ) (faceid deepid : String)
    (fraceid_conf deepid_conf : ℚ) : Person :=
  { init_id := init_id
    cid := cid
    box_xywh := box_xywh
    box_xyxy := box_xyxy
    keypoints := keypoints
    repspoint := repspoint
    det_conf := det_conf
    faceid := faceid
    deepid := deepid
    faceid_conf := fraceid_conf
    deepid_conf := deepid_conf
    ontracked := 0 }

/-- `Person.__init__` with every optional parameter left at its declared
default: `box_xywh=[]`, `box_xyxy=[]`, `keypoints=[]`, `repspoint=(0, 0)`,
`det_conf=0.5`, `faceid=unk_fid`, `deepid=unk_did`, `fraceid_conf=100.0`,
`deepid_conf=100.0`. -/
def initDefault (init_id cid : ℤ) : Person :=
  init init_id cid [] [] [] (0, 0) (1/2) unk_fid unk_did 100 100

/-- `Person.incrementOnTracked`: `self.ontracked += 1`. -/
def incrementOnTracked (p : Person) : Person :=
  { p with ontracked := p.ontracked + 1 }

/-- `Person.updateOnTracked(nframe)`: `self.ontracked = self.ontracked + nframe`. -/
def updateOnTracked (p : Person) (nframe : ℤ) : Person :=
  { p with ontracked := p.ontracked + nframe }

/-- `Person.updateIDs(new_cid, new_faceid, new_deepid, new_faceid_conf,
new_deepid_conf)`: overwrites `cid`, `faceid`, `deepid`, `faceid_conf`,
`deepid_conf` (the Python defaults for the two confidences are `0.0`). -/
def updateIDs (p : Person) (new_cid : ℤ) (new_faceid new_deepid : String)
    (new_faceid_conf new_deepid_conf : ℚ) : Person :=
  { p with
    cid := new_cid
    faceid := new_faceid
    deepid := new_deepid
    faceid_conf := new_faceid_conf
    deepid_conf := new_deepid_conf }

end Person

/-- `findRepspoint(box_xyxy, calibrate_weight)` of
`pyppbox/utils/persontools.py`; the box is `[x1, y1, x2, y2]` passed as a
four-integer tuple.  `x = int((box_xyxy[0] + box_xyxy[2]) / 2)`;
`y_start = min(box_xyxy[1], box_xyxy[3])`;
`y_dist = abs(box_xyxy[1] - box_xyxy[3])`;
`y = int(y_start + calibrate_weight*y_dist)`. -/
def findRepspoint (box_xyxy : ℤ × ℤ × ℤ × ℤ) (calibrate_weight : ℚ) : ℤ × ℤ :=
  match box_xyxy with
  | (x1, y1, x2, y2) =>
    let x := pyInt (((x1 : ℚ) + (x2 : ℚ)) / 2)
    let y_start := min y1 y2
    let y_dist := |y1 - y2|
    let y := pyInt ((y_start : ℚ) + calibrate_weight * (y_dist : ℚ))
    (x, y)

/-- `findRepspointList(box_xyxy, calibrate_weight)` of
`pyppbox/utils/persontools.py`: identical arithmetic to `findRepspoint`, but
the result is returned as the two-element list `[x, y]`. -/
def findRepspointList (box_xyxy : ℤ × ℤ × ℤ × ℤ) (calibrate_weight : ℚ) :
    List ℤ :=
  match box_xyxy with
  | (x1, y1, x2, y2) =>
    let x := pyInt (((x1 : ℚ) + (x2 : ℚ)) / 2)
    let y_start := min y1 y2
    let y_dist := |y1 - y2|
    let y := pyInt ((y_start : ℚ) + calibrate_weight * (y_dist : ℚ))
    [x, y]

/-- The spec's formula for the representative point, read with `round` as
round-to-nearest: `x = round((x1 + x2) / 2)`, `y_start = min(y1, y2)`,
`y_dist = |y1 - y2|`, `y = round(y_start + calibrate_weight * y_dist)`. -/
def specRepspointRound (box_xyxy : ℤ × ℤ × ℤ × ℤ) (calibrate_weight : ℚ) :
    ℤ × ℤ :=
  match box_xyxy with
  | (x1, y1, x2, y2) =>
    let x := round (((x1 : ℚ) + (x2 : ℚ)) / 2)
    let y_start := min y1 y2
    let y_dist := |y1 - y2|
    let y := round ((y_start : ℚ) + calibrate_weight * (y_dist : ℚ))
    (x, y)

/-- The spec's formula for the representative point with the rounding
operation corrected to Python's `int()` truncation toward zero:
`x = int((x1 + x2) / 2)`, `y_start = min(y1, y2)`, `y_dist = |y1 - y2|`,
`y = int(y_start + calibrate_weight * y_dist)`. -/
def specRepspointTrunc (box_xyxy : ℤ × ℤ × ℤ × ℤ) (calibrate_weight : ℚ) :
    ℤ × ℤ :=
  match box_xyxy with
  | (x1, y1, x2, y2) =>
    let x := pyInt (((x1 : ℚ) + (x2 : ℚ)) / 2)
    let y_start := min y1 y2
    let y_dist := |y1 - y2|
    let y := pyInt ((y_start : ℚ) + calibrate_weight * (y_dist : ℚ))
    (x, y)

/-! The Identity Reconciler's Pass 2 ("dup-killer", `PManager.reidDupkiller`
in `pyppbox/ppboxmng.py`) is not among the provided sources — only its caller
is.  The definitions below are modelled from the spec, section 4.3, Pass 2:
an identity label equal to the "Unknown" sentinel is never contended, a
confidence of exactly `0.0` is "no claim" and cannot win or participate in
duplicate contention, the winner among contenders for one label is decided by
greater `ontracked`, then greater confidence, then lower `init_id`, and every
losing Person has the contested identity field reset to "Unknown" with
confidence `0.0` while keeping its own `cid`. -/

/-- Modelled from the spec: a Person actively claims its `faceid` when the
label is not the "Unknown" sentinel and its confidence is positive
(zero confidence is "no claim"). -/
def claimsFace (p : Person) : Prop := p.faceid ≠ unk_fid ∧ 0 < p.faceid_conf

instance (p : Person) : Decidable (claimsFace p) := by
  unfold claimsFace; infer_instance

/-- Modelled from the spec: a Person actively claims its `deepid` when the
label is not the "Unknown" sentinel and its confidence is positive. -/
def claimsDeep (p : Person) : Prop := p.deepid ≠ unk_did ∧ 0 < p.deepid_conf

instance (p : Person) : Decidable (claimsDeep p) := by
  unfold claimsDeep; infer_instance

/-- Modelled from the spec: the total tie-break order on contenders for a
face identity — greater `ontracked` wins, ties broken by greater
`faceid_conf`, further ties by lower `init_id`. -/
def beatsFace (p q : Person) : Prop :=
  q.ontracked < p.ontracked ∨
    (p.ontracked = q.ontracked ∧
      (q.faceid_conf < p.faceid_conf ∨
        (p.faceid_conf = q.faceid_conf ∧ p.init_id < q.init_id)))

instance (p q : Person) : Decidable (beatsFace p q) := by
  unfold beatsFace; infer_instance

/-- Modelled from the spec: the total tie-break order on contenders for a
deep identity — greater `ontracked` wins, ties broken by greater
`deepid_conf`, further ties by lower `init_id`. -/
def beatsDeep (p q : Person) : Prop :=
  q.ontracked < p.ontracked ∨
    (p.ontracked = q.ontracked ∧
      (q.deepid_conf < p.deepid_conf ∨
        (p.deepid_conf = q.deepid_conf ∧ p.init_id < q.init_id)))

instance (p q : Person) : Decidable (beatsDeep p q) := by
  unfold beatsDeep; infer_instance

/-- Modelled from the spec: `p` loses its face identity in Pass 2 when it
claims a face label that some other roster member (a distinct Person, i.e.
different `init_id`) also claims while ranking above `p` in the tie-break
order. -/
def isFaceLoser (roster : List Person) (p : Person) : Prop :=
  claimsFace p ∧ ∃ q ∈ roster, q.faceid = p.faceid ∧ claimsFace q ∧
    q.init_id ≠ p.init_id ∧ beatsFace q p

instance (roster : List Person) (p : Person) :
    Decidable (isFaceLoser roster p) := by
  unfold isFaceLoser; infer_instance

/-- Modelled from the spec: `p` loses its deep identity in Pass 2 when it
claims a deep label that some other roster member also claims while ranking
above `p` in the tie-break order. -/
def isDeepLoser (roster : List Person) (p : Person) : Prop :=
  claimsDeep p ∧ ∃ q ∈ roster, q.deepid = p.deepid ∧ claimsDeep q ∧
    q.init_id ≠ p.init_id ∧ beatsDeep q p

instance (roster : List Person) (p : Person) :
    Decidable (isDeepLoser roster p) := by
  unfold isDeepLoser; infer_instance

/-- Modelled from the spec: revoke a contested face identity — reset the
field to the "Unknown" sentinel with confidence `0.0`. -/
def resetFace (p : Person) : Person :=
  { p with faceid := unk_fid, faceid_conf := 0 }

/-- Modelled from the spec: revoke a contested deep identity — reset the
field to the "Unknown" sentinel with confidence `0.0`. -/
def resetDeep (p : Person) : Person :=
  { p with deepid := unk_did, deepid_conf := 0 }

/-- Modelled from the spec: the Pass-2 update of one roster member — each of
the two identity namespaces is checked independently against the whole
(pre-pass) roster, and a lost identity is revoked while everything else,
`cid` included, is kept. -/
def applyDupkiller (roster : List Person) (p : Person) : Person :=
  let p1 := if isFaceLoser roster p then resetFace p else p
  if isDeepLoser roster p then resetDeep p1 else p1

/-- Modelled from the spec: Pass 2 of the Identity Reconciler
(`PManager.reidDupkiller`, not among the provided sources) — every roster
member is updated against the full roster as it stood when Pass 1
committed. -/
def reidDupkiller (roster : List Person) : List Person :=
  roster.map (applyDupkiller roster)

/-- A sample Person used to instantiate the hypothesis-bearing theorems:
a long-tenured track with resolved face and deep identities. -/
def personA : Person :=
  { init_id := 1, cid := 5, box_xywh := [100, 200, 40, 60],
    box_xyxy := [100, 200, 140, 260], keypoints := [], repspoint := (120, 215),
    det_conf := 1, faceid := "Alice", deepid := "Bob", faceid_conf := 80,
    deepid_conf := 80, ontracked := 40 }

/-- A second sample Person contending with `personA` for the deep identity
"Bob" with higher confidence but shorter tenure (the spec's section-8
example: `personA` must win on tenure). -/
def personB : Person :=
  { init_id := 2, cid := 7, box_xywh := [300, 200, 40, 60],
    box_xyxy := [300, 200, 340, 260], keypoints := [], repspoint := (320, 215),
    det_conf := 1, faceid := "Unknown", deepid := "Bob", faceid_conf := 0,
    deepid_conf := 95, ontracked := 10 }

/-- A Person holding the face label "A" with confidence exactly `0.0`. -/
def personU1 : Person :=
  { init_id := 1, cid := 1, box_xywh := [], box_xyxy := [], keypoints := [],
    repspoint := (0, 0), det_conf := 1, faceid := "A", deepid := "Unknown",
    faceid_conf := 0, deepid_conf := 0, ontracked := 3 }

/-- A second Person holding the same face label "A", also with confidence
exactly `0.0`. -/
def personU2 : Person :=
  { init_id := 2, cid := 2, box_xywh := [], box_xyxy := [], keypoints := [],
    repspoint := (0, 0), det_conf := 1, faceid := "A", deepid := "Unknown",
    faceid_conf := 0, deepid_conf := 0, ontracked := 7 }

lemma pyInt_intCast (n : ℤ) : pyInt (n : ℚ) = n := by
  unfold pyInt
  split_ifs with h
  · exact Int.floor_intCast n
  · exact Int.ceil_intCast n

lemma le_pyInt_of_le (a : ℤ) (v : ℚ) (h : (a : ℚ) ≤ v) : a ≤ pyInt v := by
  unfold pyInt
  split_ifs with h0
  · exact Int.le_floor.mpr h
  · exact_mod_cast h.trans (Int.le_ceil v)

lemma pyInt_le_of_le (v : ℚ) (b : ℤ) (h : v ≤ (b : ℚ)) : pyInt v ≤ b := by
  unfold pyInt
  split_ifs with h0
  · exact_mod_cast (Int.floor_le v).trans h
  · exact Int.ceil_le.mpr h

lemma applyDupkiller_faceid (r : List Person) (p : Person) :
    (applyDupkiller r p).faceid =
      if isFaceLoser r p then unk_fid else p.faceid := by
  unfold applyDupkiller resetFace resetDeep
  split_ifs <;> rfl

lemma applyDupkiller_faceid_conf (r : List Person) (p : Person) :
    (applyDupkiller r p).faceid_conf =
      if isFaceLoser r p then 0 else p.faceid_conf := by
  unfold applyDupkiller resetFace resetDeep
  split_ifs <;> rfl

lemma applyDupkiller_deepid (r : List Person) (p : Person) :
    (applyDupkiller r p).deepid =
      if isDeepLoser r p then unk_did else p.deepid := by
  unfold applyDupkiller resetFace resetDeep
  split_ifs <;> rfl

lemma applyDupkiller_deepid_conf (r : List Person) (p : Person) :
    (applyDupkiller r p).deepid_conf =
      if isDeepLoser r p then 0 else p.deepid_conf := by
  unfold applyDupkiller resetFace resetDeep
  split_ifs <;> rfl

lemma applyDupkiller_cid (r : List Person) (p : Person) :
    (applyDupkiller r p).cid = p.cid := by
  unfold applyDupkiller resetFace resetDeep
  split_ifs <;> rfl

lemma beatsFace_total (p q : Person) (h : p.init_id ≠ q.init_id) :
    beatsFace p q ∨ beatsFace q p := by
  unfold beatsFace
  rcases lt_trichotomy p.ontracked q.ontracked with ho | ho | ho
  · right; left; exact ho
  · rcases lt_trichotomy p.faceid_conf q.faceid_conf with hc | hc | hc
    · right; right; exact ⟨ho.symm, Or.inl hc⟩
    · rcases h.lt_or_lt with hi | hi
      · left; right; exact ⟨ho, Or.inr ⟨hc, hi⟩⟩
      · right; right; exact ⟨ho.symm, Or.inr ⟨hc.symm, hi⟩⟩
    · left; right; exact ⟨ho, Or.inl hc⟩
  · left; left; exact ho

lemma beatsDeep_total (p q : Person) (h : p.init_id ≠ q.init_id) :
    beatsDeep p q ∨ beatsDeep q p := by
  unfold beatsDeep
  rcases lt_trichotomy p.ontracked q.ontracked with ho | ho | ho
  · right; left; exact ho
  · rcases lt_trichotomy p.deepid_conf q.deepid_conf with hc | hc | hc
    · right; right; exact ⟨ho.symm, Or.inl hc⟩
    · rcases h.lt_or_lt with hi | hi
      · left; right; exact ⟨ho, Or.inr ⟨hc, hi⟩⟩
      · right; right; exact ⟨ho.symm, Or.inr ⟨hc.symm, hi⟩⟩
    · left; right; exact ⟨ho, Or.inl hc⟩
  · left; left; exact ho

/-- C1: after the dup-killer pass, duplicates with confidence exactly `0.0`
survive: both `personU1` and `personU2` hold the non-"Unknown" face label
"A" (with zero confidence, hence "no claim" per the spec), the pass leaves
the roster untouched, and so a non-"Unknown" `faceid` is still held by two
distinct Persons. -/
theorem reidDupkiller_zero_conf_counterexample :
    [personU1, personU2].Pairwise (fun p q => p.init_id ≠ q.init_id) ∧
    reidDupkiller [personU1, personU2] = [personU1, personU2] ∧
    personU1.faceid = "A" ∧ personU2.faceid = "A" ∧
    personU1.faceid ≠ unk_fid ∧ personU1.init_id ≠ personU2.init_id := by
  refine ⟨?_, ?_, rfl, rfl, ?_, ?_⟩
  · decide
  · decide
  · decide
  · decide

/-- C1 (amended): after the dup-killer pass on a roster of Persons with
pairwise-distinct `init_id`, no non-"Unknown" `faceid` backed by positive
confidence is held by two Persons, and likewise for `deepid` (holdings with
confidence exactly `0.0` are "no claim" and are not contended); every losing
Person has the contested identity field reset to "Unknown" with confidence
`0.0` and keeps its own `cid`. -/
theorem reidDupkiller_no_duplicate_ids (roster : List Person)
    (hids : roster.Pairwise (fun p q => p.init_id ≠ q.init_id)) :
    (reidDupkiller roster).Pairwise (fun p q =>
        ¬ (p.faceid = q.faceid ∧ p.faceid ≠ unk_fid ∧
            0 < p.faceid_conf ∧ 0 < q.faceid_conf) ∧
        ¬ (p.deepid = q.deepid ∧ p.deepid ≠ unk_did ∧
            0 < p.deepid_conf ∧ 0 < q.deepid_conf)) ∧
    ∀ p ∈ roster,
      (isFaceLoser roster p → (applyDupkiller roster p).faceid = unk_fid ∧
          (applyDupkiller roster p).faceid_conf = 0) ∧
      (isDeepLoser roster p → (applyDupkiller roster p).deepid = unk_did ∧
          (applyDupkiller roster p).deepid_conf = 0) ∧
      (applyDupkiller roster p).cid = p.cid := by
  constructor
  · rw [reidDupkiller, List.pairwise_map]
    refine hids.imp_of_mem ?_
    intro p q hp hq hne
    constructor
    · rintro ⟨hfid, hfunk, hfp, hfq⟩
      have hpnl : ¬ isFaceLoser roster p := by
        intro hl
        rw [applyDupkiller_faceid, if_pos hl] at hfunk
        exact hfunk rfl
      have hqnl : ¬ isFaceLoser roster q := by
        intro hl
        rw [applyDupkiller_faceid_conf, if_pos hl] at hfq
        exact lt_irrefl 0 hfq
      rw [applyDupkiller_faceid, if_neg hpnl] at hfid hfunk
      rw [applyDupkiller_faceid, if_neg hqnl] at hfid
      rw [applyDupkiller_faceid_conf, if_neg hpnl] at hfp
      rw [applyDupkiller_faceid_conf, if_neg hqnl] at hfq
      have hpc : claimsFace p := ⟨hfunk, hfp⟩
      have hqc : claimsFace q := ⟨by rw [← hfid]; exact hfunk, hfq⟩
      rcases beatsFace_total p q hne with hb | hb
      · exact hqnl ⟨hqc, p, hp, hfid, hpc, hne, hb⟩
      · exact hpnl ⟨hpc, q, hq, hfid.symm, hqc, hne.symm, hb⟩
    · rintro ⟨hdid, hdunk, hdp, hdq⟩
      have hpnl : ¬ isDeepLoser roster p := by
        intro hl
        rw [applyDupkiller_deepid, if_pos hl] at hdunk
        exact hdunk rfl
      have hqnl : ¬ isDeepLoser roster q := by
        intro hl
        rw [applyDupkiller_deepid_conf, if_pos hl] at hdq
        exact lt_irrefl 0 hdq
      rw [applyDupkiller_deepid, if_neg hpnl] at hdid hdunk
      rw [applyDupkiller_deepid, if_neg hqnl] at hdid
      rw [applyDupkiller_deepid_conf, if_neg hpnl] at hdp
      rw [applyDupkiller_deepid_conf, if_neg hqnl] at hdq
      have hpc : claimsDeep p := ⟨hdunk, hdp⟩
      have hqc : claimsDeep q := ⟨by rw [← hdid]; exact hdunk, hdq⟩
      rcases beatsDeep_total p q hne with hb | hb
      · exact hqnl ⟨hqc, p, hp, hdid, hpc, hne, hb⟩
      · exact hpnl ⟨hpc, q, hq, hdid.symm, hqc, hne.symm, hb⟩
  · intro p _
    refine ⟨?_, ?_, applyDupkiller_cid roster p⟩
    · intro hl
      rw [applyDupkiller_faceid, if_pos hl, applyDupkiller_faceid_conf,
        if_pos hl]
      exact ⟨rfl, rfl⟩
    · intro hl
      rw [applyDupkiller_deepid, if_pos hl, applyDupkiller_deepid_conf,
        if_pos hl]
      exact ⟨rfl, rfl⟩

/-- C1 witness: the spec's section-8 example roster — `personA` (tenure 40,
deepid "Bob" at confidence 80) and `personB` (tenure 10, deepid "Bob" at
confidence 95) — has distinct `init_id`s and satisfies the dup-killer
postcondition. -/
theorem reidDupkiller_no_duplicate_ids_witness :
    [personA, personB].Pairwise (fun p q => p.init_id ≠ q.init_id) ∧
    ((reidDupkiller [personA, personB]).Pairwise (fun p q =>
        ¬ (p.faceid = q.faceid ∧ p.faceid ≠ unk_fid ∧
            0 < p.faceid_conf ∧ 0 < q.faceid_conf) ∧
        ¬ (p.deepid = q.deepid ∧ p.deepid ≠ unk_did ∧
            0 < p.deepid_conf ∧ 0 < q.deepid_conf)) ∧
     ∀ p ∈ [personA, personB],
       (isFaceLoser [personA, personB] p →
           (applyDupkiller [personA, personB] p).faceid = unk_fid ∧
           (applyDupkiller [personA, personB] p).faceid_conf = 0) ∧
       (isDeepLoser [personA, personB] p →
           (applyDupkiller [personA, personB] p).deepid = unk_did ∧
           (applyDupkiller [personA, personB] p).deepid_conf = 0) ∧
       (applyDupkiller [personA, personB] p).cid = p.cid) :=
  ⟨by decide, reidDupkiller_no_duplicate_ids [personA, personB] (by decide)⟩

/-- C2: the claim reads the spec's `round` as round-to-nearest, but the code
applies Python's `int()`, which truncates: at `box_xyxy = [0, 0, 3, 1]` and
`calibrate_weight = 3/4` the code returns `(1, 0)` while the claimed formula
gives `(2, 1)` — both components differ. -/
theorem findRepspoint_round_counterexample :
    findRepspoint (0, 0, 3, 1) (3/4) = (1, 0) ∧
    specRepspointRound (0, 0, 3, 1) (3/4) = (2, 1) ∧
    findRepspoint (0, 0, 3, 1) (3/4) ≠ specRepspointRound (0, 0, 3, 1) (3/4) := by
  refine ⟨?_, ?_, ?_⟩
  · norm_num [findRepspoint, pyInt]
  · norm_num [specRepspointRound, round_eq]
  · norm_num [findRepspoint, specRepspointRound, pyInt, round_eq]

/-- C2 (amended): for every four-integer box `[x1, y1, x2, y2]` and every
`calibrate_weight`, `findRepspoint` returns `(x, y)` with
`x = int((x1 + x2) / 2)` (truncation toward zero), `y_start = min(y1, y2)`,
`y_dist = |y1 - y2|`, and `y = int(y_start + calibrate_weight * y_dist)`. -/
theorem findRepspoint_eq_specTrunc (box_xyxy : ℤ × ℤ × ℤ × ℤ)
    (calibrate_weight : ℚ) :
    findRepspoint box_xyxy calibrate_weight =
      specRepspointTrunc box_xyxy calibrate_weight := by
  obtain ⟨x1, y1, x2, y2⟩ := box_xyxy
  rfl

/-- C3: `findRepspoint` and `findRepspointList` return numerically equal
`(x, y)` values for every input, differing only in container shape (pair
versus two-element list). -/
theorem findRepspointList_eq_findRepspoint (box_xyxy : ℤ × ℤ × ℤ × ℤ)
    (calibrate_weight : ℚ) :
    findRepspointList box_xyxy calibrate_weight =
      [(findRepspoint box_xyxy calibrate_weight).1,
       (findRepspoint box_xyxy calibrate_weight).2] := by
  obtain ⟨x1, y1, x2, y2⟩ := box_xyxy
  rfl

/-- C4: with an unrestricted `calibrate_weight` the claim is false: the spec
itself says weights outside `[0, 1]` extrapolate the point outside the box.
At `box_xyxy = [0, 0, 0, 10]` and `calibrate_weight = 2` the code returns
`y = 20`, above `max(y1, y2) = 10`. -/
theorem findRepspoint_span_counterexample :
    findRepspoint (0, 0, 0, 10) 2 = (0, 20) ∧
    ¬ (findRepspoint (0, 0, 0, 10) 2).2 ≤ max (0 : ℤ) 10 := by
  constructor
  · norm_num [findRepspoint, pyInt]
  · norm_num [findRepspoint, pyInt]

/-- C4 (amended): for every four-integer box and every `calibrate_weight`
within `[0, 1]`, the `y` component of `findRepspoint` lies within the
vertical span of the box: `min(y1, y2) ≤ y ≤ max(y1, y2)`. -/
theorem findRepspoint_y_in_span (x1 y1 x2 y2 : ℤ) (calibrate_weight : ℚ)
    (h0 : 0 ≤ calibrate_weight) (h1 : calibrate_weight ≤ 1) :
    min y1 y2 ≤ (findRepspoint (x1, y1, x2, y2) calibrate_weight).2 ∧
    (findRepspoint (x1, y1, x2, y2) calibrate_weight).2 ≤ max y1 y2 := by
  have hylo : ((min y1 y2 : ℤ) : ℚ) ≤
      ((min y1 y2 : ℤ) : ℚ) + calibrate_weight * ((|y1 - y2| : ℤ) : ℚ) := by
    have : (0 : ℚ) ≤ calibrate_weight * ((|y1 - y2| : ℤ) : ℚ) := by
      apply mul_nonneg h0
      exact_mod_cast abs_nonneg (y1 - y2)
    linarith
  have hyhi : ((min y1 y2 : ℤ) : ℚ) + calibrate_weight * ((|y1 - y2| : ℤ) : ℚ) ≤
      ((max y1 y2 : ℤ) : ℚ) := by
    have habs : (0 : ℚ) ≤ ((|y1 - y2| : ℤ) : ℚ) := by
      exact_mod_cast abs_nonneg (y1 - y2)
    have hmul : calibrate_weight * ((|y1 - y2| : ℤ) : ℚ) ≤
        ((|y1 - y2| : ℤ) : ℚ) := by
      nlinarith
    have hspan : (min y1 y2 : ℤ) + |y1 - y2| = max y1 y2 := by
      rcases le_total y1 y2 with h | h
      · rw [min_eq_left h, max_eq_right h, abs_of_nonpos (by omega)]; omega
      · rw [min_eq_right h, max_eq_left h, abs_of_nonneg (by omega)]; omega
    have : ((min y1 y2 : ℤ) : ℚ) + ((|y1 - y2| : ℤ) : ℚ) =
        ((max y1 y2 : ℤ) : ℚ) := by exact_mod_cast hspan
    linarith
  constructor
  · exact le_pyInt_of_le _ _ hylo
  · exact pyInt_le_of_le _ _ hyhi

/-- C4 witness: at `box_xyxy = [100, 200, 140, 260]` and
`calibrate_weight = 1/4`, the weight is in `[0, 1]` and the returned `y`
lies within `[200, 260]`. -/
theorem findRepspoint_y_in_span_witness :
    (0 : ℚ) ≤ 1/4 ∧ (1/4 : ℚ) ≤ 1 ∧
    (min (200 : ℤ) 260 ≤ (findRepspoint (100, 200, 140, 260) (1/4)).2 ∧
     (findRepspoint (100, 200, 140, 260) (1/4)).2 ≤ max (200 : ℤ) 260) :=
  ⟨by norm_num, by norm_num,
   findRepspoint_y_in_span 100 200 140 260 (1/4) (by norm_num) (by norm_num)⟩

/-- C5: iterating `incrementOnTracked` `N` times adds `N` to `ontracked`,
agrees with a single `updateOnTracked(N)` call, and neither path changes any
other attribute of the Person. -/
theorem incrementOnTracked_iterate_eq_updateOnTracked (p : Person) (N : ℕ) :
    Person.incrementOnTracked^[N] p = p.updateOnTracked N ∧
    (Person.incrementOnTracked^[N] p).ontracked = p.ontracked + N ∧
    (p.updateOnTracked N).init_id = p.init_id ∧
    (p.updateOnTracked N).cid = p.cid ∧
    (p.updateOnTracked N).box_xywh = p.box_xywh ∧
    (p.updateOnTracked N).box_xyxy = p.box_xyxy ∧
    (p.updateOnTracked N).keypoints = p.keypoints ∧
    (p.updateOnTracked N).repspoint = p.repspoint ∧
    (p.updateOnTracked N).det_conf = p.det_conf ∧
    (p.updateOnTracked N).faceid = p.faceid ∧
    (p.updateOnTracked N).deepid = p.deepid ∧
    (p.updateOnTracked N).faceid_conf = p.faceid_conf ∧
    (p.updateOnTracked N).deepid_conf = p.deepid_conf := by
  have key : ∀ n : ℕ, Person.incrementOnTracked^[n] p = p.updateOnTracked n := by
    intro n
    induction n with
    | zero => simp [Person.updateOnTracked]
    | succ k ih =>
        rw [Function.iterate_succ_apply', ih]
        simp only [Person.updateOnTracked, Person.incrementOnTracked]
        congr 1
        push_cast
        ring
  refine ⟨key N, ?_, rfl, rfl, rfl, rfl, rfl, rfl, rfl, rfl, rfl, rfl, rfl⟩
  rw [key N]
  rfl

/-- C6: `updateOnTracked(nframe)` with `nframe ≥ 0` sets `ontracked` to its
prior value plus `nframe`, changes nothing else, and `updateOnTracked(0)`
leaves the Person entirely unchanged. -/
theorem updateOnTracked_adds (p : Person) (nframe : ℤ) (h : 0 ≤ nframe) :
    (p.updateOnTracked nframe).ontracked = p.ontracked + nframe ∧
    (p.updateOnTracked nframe).init_id = p.init_id ∧
    (p.updateOnTracked nframe).cid = p.cid ∧
    (p.updateOnTracked nframe).box_xywh = p.box_xywh ∧
    (p.updateOnTracked nframe).box_xyxy = p.box_xyxy ∧
    (p.updateOnTracked nframe).keypoints = p.keypoints ∧
    (p.updateOnTracked nframe).repspoint = p.repspoint ∧
    (p.updateOnTracked nframe).det_conf = p.det_conf ∧
    (p.updateOnTracked nframe).faceid = p.faceid ∧
    (p.updateOnTracked nframe).deepid = p.deepid ∧
    (p.updateOnTracked nframe).faceid_conf = p.faceid_conf ∧
    (p.updateOnTracked nframe).deepid_conf = p.deepid_conf ∧
    p.updateOnTracked 0 = p := by
  refine ⟨rfl, rfl, rfl, rfl, rfl, rfl, rfl, rfl, rfl, rfl, rfl, rfl, ?_⟩
  simp [Person.updateOnTracked]

/-- C6 witness: instantiated at `personA` and `nframe = 5`. -/
theorem updateOnTracked_adds_witness :
    (0 : ℤ) ≤ 5 ∧
    ((personA.updateOnTracked 5).ontracked = personA.ontracked + 5 ∧
     (personA.updateOnTracked 5).init_id = personA.init_id ∧
     (personA.updateOnTracked 5).cid = personA.cid ∧
     (personA.updateOnTracked 5).box_xywh = personA.box_xywh ∧
     (personA.updateOnTracked 5).box_xyxy = personA.box_xyxy ∧
     (personA.updateOnTracked 5).keypoints = personA.keypoints ∧
     (personA.updateOnTracked 5).repspoint = personA.repspoint ∧
     (personA.updateOnTracked 5).det_conf = personA.det_conf ∧
     (personA.updateOnTracked 5).faceid = personA.faceid ∧
     (personA.updateOnTracked 5).deepid = personA.deepid ∧
     (personA.updateOnTracked 5).faceid_conf = personA.faceid_conf ∧
     (personA.updateOnTracked 5).deepid_conf = personA.deepid_conf ∧
     personA.updateOnTracked 0 = personA) :=
  ⟨by decide, updateOnTracked_adds personA 5 (by decide)⟩

/-- C7: `updateIDs` overwrites exactly `cid`, `faceid`, `deepid`,
`faceid_conf`, `deepid_conf` with the given values, and leaves `init_id`,
`box_xywh`, `box_xyxy`, `keypoints`, `repspoint`, `det_conf` and `ontracked`
unchanged. -/
theorem updateIDs_fields (p : Person) (new_cid : ℤ)
    (new_faceid new_deepid : String) (new_faceid_conf new_deepid_conf : ℚ) :
    (p.updateIDs new_cid new_faceid new_deepid new_faceid_conf
        new_deepid_conf).cid = new_cid ∧
    (p.updateIDs new_cid new_faceid new_deepid new_faceid_conf
        new_deepid_conf).faceid = new_faceid ∧
    (p.updateIDs new_cid new_faceid new_deepid new_faceid_conf
        new_deepid_conf).deepid = new_deepid ∧
    (p.updateIDs new_cid new_faceid new_deepid new_faceid_conf
        new_deepid_conf).faceid_conf = new_faceid_conf ∧
    (p.updateIDs new_cid new_faceid new_deepid new_faceid_conf
        new_deepid_conf).deepid_conf = new_deepid_conf ∧
    (p.updateIDs new_cid new_faceid new_deepid new_faceid_conf
        new_deepid_conf).init_id = p.init_id ∧
    (p.updateIDs new_cid new_faceid new_deepid new_faceid_conf
        new_deepid_conf).box_xywh = p.box_xywh ∧
    (p.updateIDs new_cid new_faceid new_deepid new_faceid_conf
        new_deepid_conf).box_xyxy = p.box_xyxy ∧
    (p.updateIDs new_cid new_faceid new_deepid new_faceid_conf
        new_deepid_conf).keypoints = p.keypoints ∧
    (p.updateIDs new_cid new_faceid new_deepid new_faceid_conf
        new_deepid_conf).repspoint = p.repspoint ∧
    (p.updateIDs new_cid new_faceid new_deepid new_faceid_conf
        new_deepid_conf).det_conf = p.det_conf ∧
    (p.updateIDs new_cid new_faceid new_deepid new_faceid_conf
        new_deepid_conf).ontracked = p.ontracked :=
  ⟨rfl, rfl, rfl, rfl, rfl, rfl, rfl, rfl, rfl, rfl, rfl, rfl⟩

/-- C8: a degenerate box with `x1 == x2` is accepted (the function is total)
and produces `x = x1`, for all `y1`, `y2` and every `calibrate_weight`. -/
theorem findRepspoint_degenerate_x (x1 y1 y2 : ℤ) (calibrate_weight : ℚ) :
    (findRepspoint (x1, y1, x1, y2) calibrate_weight).1 = x1 := by
  show pyInt (((x1 : ℚ) + (x1 : ℚ)) / 2) = x1
  have : ((x1 : ℚ) + (x1 : ℚ)) / 2 = (x1 : ℚ) := by ring
  rw [this, pyInt_intCast]

/-- C9: every Person built by the constructor has `ontracked = 0`, whatever
the eleven constructor arguments are — the constructor accepts no `ontracked`
parameter and unconditionally initializes the counter to `0`. -/
theorem init_ontracked_zero (init_id cid : ℤ) (box_xywh box_xyxy : List ℤ)
    (keypoints : List ℚ) (repspoint : ℤ × ℤ) (det_conf : ℚ)
    (faceid deepid : String) (fraceid_conf deepid_conf : ℚ) :
    (Person.init init_id cid box_xywh box_xyxy keypoints repspoint det_conf
        faceid deepid fraceid_conf deepid_conf).ontracked = 0 :=
  rfl

/-- C10: a Person constructed with all defaults has
`faceid_conf = deepid_conf = 100.0` (not `0.0` as the docstring states, via
the misspelled parameter `fraceid_conf`), while `faceid` and `deepid`
default to the "Unknown" sentinel. -/
theorem initDefault_confidences (init_id cid : ℤ) :
    (Person.initDefault init_id cid).faceid_conf = 100 ∧
    (Person.initDefault init_id cid).deepid_conf = 100 ∧
    (Person.initDefault init_id cid).faceid = "Unknown" ∧
    (Person.initDefault init_id cid).deepid = "Unknown" ∧
    ¬ (Person.initDefault init_id cid).faceid_conf = 0 ∧
    ¬ (Person.initDefault init_id cid).deepid_conf = 0 := by
  refine ⟨rfl, rfl, rfl, rfl, ?_, ?_⟩ <;>
    simp [Person.initDefault, Person.init]

end Pyppbox
